import Mathlib

/-!
Shallow embedding of the weather-alert core of the Capstone backend:
the subscription registry, the alert evaluator, the per-user check
orchestration (src/backend/app/services/weather_alerts.py) and the
notification token registry (src/backend/app/services/notifications.py).

Conventions of the embedding:
- Python floats become rationals; datetimes become natural-number epoch
  seconds; Python dicts keyed by user id become either total functions
  into Option (subscription registry) or insertion-ordered association
  lists (device-token registry, where size matters).
- A weather-conditions dict is a structure of Option fields; the source
  pattern d.get(key, default) becomes (field).getD default.
- Fallible operations return Except; the async weather fetch is passed
  in as an Except value so the error path is explicit.
- Alert message strings are elided except for data interpolated into
  them that a claim mentions (the step count in the rain message).
-/

namespace Capstone

/-- Current weather conditions record, as consumed by the alert checks.
Mirrors the keys read from the dict returned by weather.get_current_weather;
a missing key is None. -/
structure CurrentConditions where
  weather_code : Option Int := none
  weather_description : String := ""
  wind_speed : Option ℚ := none
  wind_gusts : Option ℚ := none
  precipitation : Option ℚ := none
  temperature : Option ℚ := none
deriving Repr, DecidableEq

/-- One hourly forecast point, as consumed by the rain check. -/
structure ForecastPoint where
  precipitation_probability : Option ℚ := none
  time : String := ""
deriving Repr, DecidableEq

/-- The hourly forecast dict: the rain check reads its forecasts list. -/
structure HourlyForecast where
  forecasts : List ForecastPoint := []
deriving Repr, DecidableEq

/-- UserWeatherSubscription dataclass from weather_alerts.py, with its
field defaults. -/
structure UserWeatherSubscription where
  user_id : String
  latitude : ℚ
  longitude : ℚ
  location_name : String
  alerts_enabled : Bool := true
  rain_alerts : Bool := true
  temperature_alerts : Bool := true
  severe_weather_alerts : Bool := true
  temperature_threshold_high : ℚ := 95
  temperature_threshold_low : ℚ := 32
  last_checked : Option Nat := none
  last_conditions : Option CurrentConditions := none
deriving Repr, DecidableEq

/-- Alert records produced by the evaluator, one constructor per alert
type string, carrying the kind-specific fields of the returned dict
(plus, for rain_coming, the 1-indexed step count interpolated into the
message). -/
inductive Alert where
  | severe_weather (weather_code : Int) (weather_description : String)
  | high_wind (wind_speed wind_gusts : ℚ)
  | rain_coming (probability : ℚ) (time_ahead : Nat) (time : String)
  | high_temperature (temperature : ℚ)
  | low_temperature (temperature : ℚ)
deriving Repr, DecidableEq

/-- Severe weather codes (thunderstorms, heavy precipitation), as listed
in WeatherAlertService._check_severe_weather. -/
def severe_codes : List Int := [95, 96, 99, 65, 67, 75, 82, 86]

/-- WeatherAlertService._check_severe_weather: severe code first, then
high winds; the subscription argument is present but unused, as in the
source. -/
def checkSevereWeather (current : CurrentConditions)
    (_sub : UserWeatherSubscription) : Option Alert :=
  let weather_code := current.weather_code.getD 0
  if weather_code ∈ severe_codes then
    some (.severe_weather weather_code current.weather_description)
  else
    let wind_speed := current.wind_speed.getD 0
    let wind_gusts := current.wind_gusts.getD 0
    if wind_gusts > 50 ∨ wind_speed > 35 then
      some (.high_wind wind_speed wind_gusts)
    else
      none

/-- The loop body of _check_rain over the (already truncated) forecast
list; k is the 0-based index of the first element of pts in the original
enumeration. The source guard is truthiness of precip_prob together with
precip_prob greater than 60. -/
def checkRainAux : List ForecastPoint → Nat → Option Alert
  | [], _ => none
  | p :: rest, k =>
    let precip_prob := p.precipitation_probability.getD 0
    if precip_prob ≠ 0 ∧ precip_prob > 60 then
      some (.rain_coming precip_prob (k + 1) p.time)
    else
      checkRainAux rest (k + 1)

/-- WeatherAlertService._check_rain: skip when already raining, else scan
the first 6 forecast points. -/
def checkRain (current : CurrentConditions) (forecast : HourlyForecast)
    (_sub : UserWeatherSubscription) : Option Alert :=
  if current.precipitation.getD 0 > 0 then
    none
  else
    checkRainAux (forecast.forecasts.take 6) 0

/-- The threshold comparisons at the end of _check_temperature. -/
def checkTemperatureThresholds (temp : ℚ)
    (sub : UserWeatherSubscription) : Option Alert :=
  if temp ≥ sub.temperature_threshold_high then
    some (.high_temperature temp)
  else if temp ≤ sub.temperature_threshold_low then
    some (.low_temperature temp)
  else
    none

/-- WeatherAlertService._check_temperature: default reading 70, dedup
against the previous snapshot when one exists, then the thresholds. -/
def checkTemperature (current : CurrentConditions)
    (sub : UserWeatherSubscription) : Option Alert :=
  let temp := current.temperature.getD 70
  match sub.last_conditions with
  | some last_conditions =>
      let last_temp := last_conditions.temperature.getD temp
      if |temp - last_temp| < 5 then
        none
      else
        checkTemperatureThresholds temp sub
  | none => checkTemperatureThresholds temp sub

/-- A forecast point triggers the rain alert when its probability
exceeds 60 (a probability above 60 is in particular nonzero, so the
truthiness guard in the source is subsumed). -/
def rainTrigger (p : ForecastPoint) : Prop :=
  p.precipitation_probability.getD 0 > 60

instance (p : ForecastPoint) : Decidable (rainTrigger p) := by
  unfold rainTrigger; infer_instance

theorem rainTrigger_iff_guard (p : ForecastPoint) :
    rainTrigger p ↔
      (p.precipitation_probability.getD 0 ≠ 0 ∧
        p.precipitation_probability.getD 0 > 60) := by
  unfold rainTrigger
  constructor
  · intro h
    exact ⟨(lt_trans (show (0:ℚ) < 60 by norm_num) h).ne', h⟩
  · intro h
    exact h.2

theorem checkTemperatureThresholds_high (temp : ℚ)
    (sub : UserWeatherSubscription)
    (h : temp ≥ sub.temperature_threshold_high) :
    checkTemperatureThresholds temp sub = some (.high_temperature temp) := by
  unfold checkTemperatureThresholds
  rw [if_pos h]

theorem checkTemperatureThresholds_low (temp : ℚ)
    (sub : UserWeatherSubscription)
    (hlh : sub.temperature_threshold_low < sub.temperature_threshold_high)
    (h : temp ≤ sub.temperature_threshold_low) :
    checkTemperatureThresholds temp sub = some (.low_temperature temp) := by
  unfold checkTemperatureThresholds
  rw [if_neg (not_le.mpr (lt_of_le_of_lt h hlh)), if_pos h]

theorem checkTemperatureThresholds_none (temp : ℚ)
    (sub : UserWeatherSubscription)
    (h1 : sub.temperature_threshold_low < temp)
    (h2 : temp < sub.temperature_threshold_high) :
    checkTemperatureThresholds temp sub = none := by
  unfold checkTemperatureThresholds
  rw [if_neg (not_le.mpr h2), if_neg (not_le.mpr h1)]

/-- C1: the severe-weather check returns a severe_weather alert exactly
on the codes of the severe set, regardless of wind; on other codes it
returns high_wind exactly when gusts exceed 50 or sustained wind exceeds
35, and otherwise no alert — so when a severe code and the wind
condition both hold, only severe_weather is returned. -/
theorem C1_severe_weather_check (current : CurrentConditions)
    (sub : UserWeatherSubscription) :
    (current.weather_code.getD 0 ∈ severe_codes →
       checkSevereWeather current sub =
         some (.severe_weather (current.weather_code.getD 0)
           current.weather_description)) ∧
    (current.weather_code.getD 0 ∉ severe_codes →
       ((current.wind_gusts.getD 0 > 50 ∨ current.wind_speed.getD 0 > 35) →
          checkSevereWeather current sub =
            some (.high_wind (current.wind_speed.getD 0)
              (current.wind_gusts.getD 0))) ∧
       (¬ (current.wind_gusts.getD 0 > 50 ∨ current.wind_speed.getD 0 > 35) →
          checkSevereWeather current sub = none)) := by
  unfold checkSevereWeather
  refine ⟨fun h => ?_, fun h => ⟨fun hw => ?_, fun hw => ?_⟩⟩
  · rw [if_pos h]
  · rw [if_neg h, if_pos hw]
  · rw [if_neg h, if_neg hw]

/-- Sample subscription with all-default settings. -/
def sampleSub : UserWeatherSubscription :=
  { user_id := "u1", latitude := 0, longitude := 0,
    location_name := "Testville" }

/-- Thunderstorm conditions with gusts above the high-wind threshold. -/
def stormConditions : CurrentConditions :=
  { weather_code := some 95, weather_description := "Thunderstorm",
    wind_speed := some 10, wind_gusts := some 55 }

theorem C1_severe_weather_check_witness :
    checkSevereWeather stormConditions sampleSub =
      some (.severe_weather 95 "Thunderstorm") :=
  (C1_severe_weather_check stormConditions sampleSub).1 (by decide)

/-- C3: the temperature check suppresses any alert when a previous
snapshot exists and the absolute delta is under 5; otherwise a reading
at or above the high threshold yields high_temperature, a reading at or
below the low threshold yields low_temperature (stated with the sane
ordering of the two thresholds), and a reading strictly between them
yields no alert. -/
theorem C3_temperature_check (current : CurrentConditions)
    (sub : UserWeatherSubscription) (temp : ℚ)
    (htemp : temp = current.temperature.getD 70) :
    (∀ lc, sub.last_conditions = some lc →
       |temp - lc.temperature.getD temp| < 5 →
       checkTemperature current sub = none) ∧
    ((∀ lc, sub.last_conditions = some lc →
        ¬ |temp - lc.temperature.getD temp| < 5) →
      ((temp ≥ sub.temperature_threshold_high →
          checkTemperature current sub = some (.high_temperature temp)) ∧
       (sub.temperature_threshold_low < sub.temperature_threshold_high →
          temp ≤ sub.temperature_threshold_low →
          checkTemperature current sub = some (.low_temperature temp)) ∧
       (sub.temperature_threshold_low < temp →
          temp < sub.temperature_threshold_high →
          checkTemperature current sub = none))) := by
  subst htemp
  unfold checkTemperature
  cases hlc : sub.last_conditions with
  | none =>
      refine ⟨fun lc h => by simp at h, fun _ => ?_⟩
      exact ⟨fun h => checkTemperatureThresholds_high _ _ h,
        fun hlh h => checkTemperatureThresholds_low _ _ hlh h,
        fun h1 h2 => checkTemperatureThresholds_none _ _ h1 h2⟩
  | some lc =>
      dsimp only
      refine ⟨fun lc' h hd => ?_, fun hnd => ?_⟩
      · obtain rfl : lc = lc' := by injection h
        rw [if_pos hd]
      · rw [if_neg (hnd lc rfl)]
        exact ⟨fun h => checkTemperatureThresholds_high _ _ h,
          fun hlh h => checkTemperatureThresholds_low _ _ hlh h,
          fun h1 h2 => checkTemperatureThresholds_none _ _ h1 h2⟩

/-- Reading of 96 degrees against a snapshot at 70. -/
def hotConditions : CurrentConditions := { temperature := some 96 }

/-- Subscription whose previous snapshot recorded 70 degrees. -/
def subWithSnapshot70 : UserWeatherSubscription :=
  { sampleSub with last_conditions := some { temperature := some 70 } }

theorem C3_temperature_check_witness :
    checkTemperature hotConditions subWithSnapshot70 =
      some (.high_temperature 96) :=
  ((C3_temperature_check hotConditions subWithSnapshot70 96 rfl).2
    (fun lc hlc => by
      obtain rfl : ({ temperature := some 70 } : CurrentConditions) = lc := by
        injection hlc
      norm_num [abs_sub_lt_iff])).1 (by decide)

/-- C10: a current record with no temperature is treated exactly as a
reading of 70, and a previous snapshot lacking a temperature makes the
delta zero, so the check is suppressed regardless of thresholds. -/
theorem C10_temperature_defaults (current : CurrentConditions)
    (sub : UserWeatherSubscription) :
    (current.temperature = none →
       checkTemperature current sub =
         checkTemperature { current with temperature := some 70 } sub) ∧
    (∀ lc, sub.last_conditions = some lc → lc.temperature = none →
       checkTemperature current sub = none) := by
  constructor
  · intro h
    simp [checkTemperature, h]
  · intro lc hlc hlct
    simp [checkTemperature, hlc, hlct]

/-- Conditions record that carries no temperature key. -/
def noTempConditions : CurrentConditions := { weather_code := some 1 }

/-- Subscription whose previous snapshot carries no temperature key. -/
def subWithEmptySnapshot : UserWeatherSubscription :=
  { sampleSub with last_conditions := some { weather_code := some 2 } }

theorem C10_temperature_defaults_witness :
    checkTemperature noTempConditions subWithEmptySnapshot = none :=
  (C10_temperature_defaults noTempConditions subWithEmptySnapshot).2
    { weather_code := some 2 } rfl rfl

theorem checkRainAux_first (pts : List ForecastPoint) (k i : Nat)
    (h : i < pts.length) (ht : rainTrigger (pts.get ⟨i, h⟩))
    (hfirst : ∀ j (hj : j < i), ¬ rainTrigger (pts.get ⟨j, hj.trans h⟩)) :
    checkRainAux pts k =
      some (.rain_coming ((pts.get ⟨i, h⟩).precipitation_probability.getD 0)
        (k + i + 1) (pts.get ⟨i, h⟩).time) := by
  induction pts generalizing k i with
  | nil => exact absurd h (Nat.not_lt_zero i)
  | cons p rest ih =>
      cases i with
      | zero =>
          have hg := (rainTrigger_iff_guard p).mp ht
          unfold checkRainAux
          rw [if_pos hg]
          rfl
      | succ i' =>
          have hnp : ¬ rainTrigger p := hfirst 0 (Nat.succ_pos i')
          have hng : ¬ (p.precipitation_probability.getD 0 ≠ 0 ∧
              p.precipitation_probability.getD 0 > 60) :=
            fun hg => hnp ((rainTrigger_iff_guard p).mpr hg)
          unfold checkRainAux
          rw [if_neg hng]
          have := ih (k + 1) i' (Nat.lt_of_succ_lt_succ h) ht
            (fun j hj => hfirst (j + 1) (Nat.succ_lt_succ hj))
          rw [this]
          congr 2
          omega

theorem checkRainAux_none (pts : List ForecastPoint) (k : Nat)
    (hnone : ∀ i (h : i < pts.length), ¬ rainTrigger (pts.get ⟨i, h⟩)) :
    checkRainAux pts k = none := by
  induction pts generalizing k with
  | nil => rfl
  | cons p rest ih =>
      have hnp : ¬ rainTrigger p := hnone 0 (Nat.succ_pos rest.length)
      have hng : ¬ (p.precipitation_probability.getD 0 ≠ 0 ∧
          p.precipitation_probability.getD 0 > 60) :=
        fun hg => hnp ((rainTrigger_iff_guard p).mpr hg)
      unfold checkRainAux
      rw [if_neg hng]
      exact ih (k + 1) (fun i h => hnone (i + 1) (Nat.succ_lt_succ h))

/-- C2: the rain check returns no alert whenever current precipitation is
positive; otherwise, over the first 6 forecast points, the first point
whose probability exceeds 60 yields a rain_coming alert carrying that
probability and the 1-indexed step count (index i gives i + 1), and when
no such point exists among the first 6 the check returns no alert. -/
theorem C2_rain_check (current : CurrentConditions)
    (forecast : HourlyForecast) (sub : UserWeatherSubscription)
    (fc : List ForecastPoint) (hfc : fc = forecast.forecasts.take 6) :
    (current.precipitation.getD 0 > 0 →
       checkRain current forecast sub = none) ∧
    (¬ current.precipitation.getD 0 > 0 →
      (∀ (i : Nat) (h : i < fc.length),
         rainTrigger (fc.get ⟨i, h⟩) →
         (∀ j (hj : j < i), ¬ rainTrigger (fc.get ⟨j, hj.trans h⟩)) →
         checkRain current forecast sub =
           some (.rain_coming
             ((fc.get ⟨i, h⟩).precipitation_probability.getD 0)
             (i + 1) (fc.get ⟨i, h⟩).time)) ∧
      ((∀ i (h : i < fc.length), ¬ rainTrigger (fc.get ⟨i, h⟩)) →
         checkRain current forecast sub = none)) := by
  subst hfc
  unfold checkRain
  refine ⟨fun hp => ?_, fun hnp => ⟨fun i h ht hfirst => ?_, fun hnone => ?_⟩⟩
  · rw [if_pos hp]
  · rw [if_neg hnp, checkRainAux_first _ 0 i h ht hfirst]
    congr 2
    omega
  · rw [if_neg hnp, checkRainAux_none _ 0 hnone]

/-- Dry current conditions: explicit zero precipitation. -/
def dryConditions : CurrentConditions := { precipitation := some 0 }

/-- Six-point forecast whose first probability above 60 sits at 0-based
index 2. -/
def rainForecast : HourlyForecast :=
  { forecasts :=
      [{ precipitation_probability := some 50, time := "t0" },
       { precipitation_probability := some 50, time := "t1" },
       { precipitation_probability := some 80, time := "t2" },
       { precipitation_probability := some 30, time := "t3" },
       { precipitation_probability := some 90, time := "t4" },
       { precipitation_probability := some 10, time := "t5" }] }

theorem C2_rain_check_witness :
    checkRain dryConditions rainForecast sampleSub =
      some (.rain_coming 80 3 "t2") :=
  ((C2_rain_check dryConditions rainForecast sampleSub _ rfl).2
    (by decide)).1 2 (by decide) (by decide) (by decide)

/-- The in-memory subscription store, keyed by user id. -/
def Registry := String → Option UserWeatherSubscription

/-- One keyword argument passed to subscribe or update_subscription: a
recognized field name paired with a well-typed value, or an arbitrary
unrecognized name. -/
inductive FieldUpd where
  | user_id (v : String)
  | latitude (v : ℚ)
  | longitude (v : ℚ)
  | location_name (v : String)
  | alerts_enabled (v : Bool)
  | rain_alerts (v : Bool)
  | temperature_alerts (v : Bool)
  | severe_weather_alerts (v : Bool)
  | temperature_threshold_high (v : ℚ)
  | temperature_threshold_low (v : ℚ)
  | last_checked (v : Option Nat)
  | last_conditions (v : Option CurrentConditions)
  | unknown (name : String)
deriving Repr, DecidableEq

/-- The keyword string naming a field update. -/
def FieldUpd.fieldName : FieldUpd → String
  | .user_id _ => "user_id"
  | .latitude _ => "latitude"
  | .longitude _ => "longitude"
  | .location_name _ => "location_name"
  | .alerts_enabled _ => "alerts_enabled"
  | .rain_alerts _ => "rain_alerts"
  | .temperature_alerts _ => "temperature_alerts"
  | .severe_weather_alerts _ => "severe_weather_alerts"
  | .temperature_threshold_high _ => "temperature_threshold_high"
  | .temperature_threshold_low _ => "temperature_threshold_low"
  | .last_checked _ => "last_checked"
  | .last_conditions _ => "last_conditions"
  | .unknown n => n

/-- Whether the update names an attribute of the dataclass, i.e. the
hasattr test of update_subscription. -/
def FieldUpd.recognized : FieldUpd → Bool
  | .unknown _ => false
  | _ => true

/-- Whether the update may appear among the optional kwargs of
subscribe: the required constructor fields are excluded (passing them as
kwargs duplicates a positional argument, a TypeError), as is any
unrecognized name (an unexpected-keyword TypeError). -/
def FieldUpd.isOptionField : FieldUpd → Bool
  | .user_id _ => false
  | .latitude _ => false
  | .longitude _ => false
  | .location_name _ => false
  | .unknown _ => false
  | _ => true

/-- The setattr of update_subscription, and equally the dataclass
constructor consuming one kwarg: a recognized name overwrites its field,
an unrecognized one (guarded out by hasattr) leaves the record as is. -/
def applyUpd (sub : UserWeatherSubscription) : FieldUpd → UserWeatherSubscription
  | .user_id v => { sub with user_id := v }
  | .latitude v => { sub with latitude := v }
  | .longitude v => { sub with longitude := v }
  | .location_name v => { sub with location_name := v }
  | .alerts_enabled v => { sub with alerts_enabled := v }
  | .rain_alerts v => { sub with rain_alerts := v }
  | .temperature_alerts v => { sub with temperature_alerts := v }
  | .severe_weather_alerts v => { sub with severe_weather_alerts := v }
  | .temperature_threshold_high v => { sub with temperature_threshold_high := v }
  | .temperature_threshold_low v => { sub with temperature_threshold_low := v }
  | .last_checked v => { sub with last_checked := v }
  | .last_conditions v => { sub with last_conditions := v }
  | .unknown _ => sub

/-- Reads the field of a subscription named by a keyword string,
packaged in the corresponding FieldUpd constructor; none for a name that
is not an attribute. -/
def getField (sub : UserWeatherSubscription) (fname : String) : Option FieldUpd :=
  if fname = "user_id" then some (.user_id sub.user_id)
  else if fname = "latitude" then some (.latitude sub.latitude)
  else if fname = "longitude" then some (.longitude sub.longitude)
  else if fname = "location_name" then some (.location_name sub.location_name)
  else if fname = "alerts_enabled" then some (.alerts_enabled sub.alerts_enabled)
  else if fname = "rain_alerts" then some (.rain_alerts sub.rain_alerts)
  else if fname = "temperature_alerts" then some (.temperature_alerts sub.temperature_alerts)
  else if fname = "severe_weather_alerts" then some (.severe_weather_alerts sub.severe_weather_alerts)
  else if fname = "temperature_threshold_high" then some (.temperature_threshold_high sub.temperature_threshold_high)
  else if fname = "temperature_threshold_low" then some (.temperature_threshold_low sub.temperature_threshold_low)
  else if fname = "last_checked" then some (.last_checked sub.last_checked)
  else if fname = "last_conditions" then some (.last_conditions sub.last_conditions)
  else none

/-- The UserWeatherSubscription the dataclass constructor builds from
the four required arguments when no optional kwarg is given. -/
def defaultSubscription (user_id : String) (latitude longitude : ℚ)
    (location_name : String) : UserWeatherSubscription :=
  { user_id := user_id, latitude := latitude, longitude := longitude,
    location_name := location_name }

/-- WeatherAlertService.subscribe: builds the dataclass from the
required arguments plus kwargs and stores it under user_id, always
returning True; a kwarg that is not a recognized optional field makes
the constructor call raise, leaving the store untouched. -/
def subscribe (reg : Registry) (user_id : String) (latitude longitude : ℚ)
    (location_name : String) (kwargs : List FieldUpd) :
    Except Unit Bool × Registry :=
  if kwargs.all FieldUpd.isOptionField then
    (.ok true,
     fun u =>
       if u = user_id then
         some (kwargs.foldl applyUpd
           (defaultSubscription user_id latitude longitude location_name))
       else reg u)
  else
    (.error (), reg)

/-- WeatherAlertService.unsubscribe. -/
def unsubscribe (reg : Registry) (user_id : String) : Bool × Registry :=
  match reg user_id with
  | some _ => (true, fun u => if u = user_id then none else reg u)
  | none => (false, reg)

/-- WeatherAlertService.update_subscription: False when the user has no
subscription, otherwise setattr for each kwarg whose name passes the
hasattr test. -/
def update_subscription (reg : Registry) (user_id : String)
    (kwargs : List FieldUpd) : Bool × Registry :=
  match reg user_id with
  | none => (false, reg)
  | some sub =>
      (true,
       fun u =>
         if u = user_id then some (kwargs.foldl applyUpd sub) else reg u)

/-- Lookup of a subscription in the store (the dict access behind the
get operation of the spec). -/
def get_subscription (reg : Registry) (user_id : String) :
    Option UserWeatherSubscription :=
  reg user_id

/-- WeatherAlertService.check_weather_for_user. The weather fetch is
passed in as an Except value standing for the awaited client calls; the
notification dispatches are side effects elided here, and the returned
registry carries the last_checked and last_conditions writes. -/
def checkWeatherForUser (reg : Registry) (user_id : String)
    (fetch : Except Unit (CurrentConditions × HourlyForecast))
    (now : Nat) : List Alert × Registry :=
  match reg user_id with
  | none => ([], reg)
  | some sub =>
      if sub.alerts_enabled = false then ([], reg)
      else
        match fetch with
        | .error _ => ([], reg)
        | .ok (current, forecast) =>
            let severeAlerts :=
              if sub.severe_weather_alerts then
                (checkSevereWeather current sub).toList
              else []
            let rainAlerts :=
              if sub.rain_alerts then
                (checkRain current forecast sub).toList
              else []
            let tempAlerts :=
              if sub.temperature_alerts then
                (checkTemperature current sub).toList
              else []
            let updated :=
              { sub with last_checked := some now,
                         last_conditions := some current }
            (severeAlerts ++ rainAlerts ++ tempAlerts,
             fun u => if u = user_id then some updated else reg u)

/-- The registry with no subscriptions. -/
def emptyRegistry : Registry := fun _ => none

theorem getField_applyUpd_self (sub : UserWeatherSubscription)
    (upd : FieldUpd) (h : upd.recognized = true) :
    getField (applyUpd sub upd) upd.fieldName = some upd := by
  cases upd <;> first
    | rfl
    | simp [FieldUpd.recognized] at h

theorem getField_applyUpd_other (sub : UserWeatherSubscription)
    (upd : FieldUpd) (fname : String) (h : upd.fieldName ≠ fname) :
    getField (applyUpd sub upd) fname = getField sub fname := by
  cases upd <;> simp only [FieldUpd.fieldName] at h <;>
    first
      | rfl
      | (unfold getField
         simp only [applyUpd, if_neg (Ne.symm h)])

theorem getField_foldl_frame (kwargs : List FieldUpd)
    (sub : UserWeatherSubscription) (fname : String)
    (h : fname ∉ kwargs.map FieldUpd.fieldName) :
    getField (kwargs.foldl applyUpd sub) fname = getField sub fname := by
  induction kwargs generalizing sub with
  | nil => rfl
  | cons k rest ih =>
      simp only [List.map_cons, List.mem_cons, not_or] at h
      rw [List.foldl_cons, ih _ h.2,
        getField_applyUpd_other _ _ _ (fun he => h.1 he.symm)]

theorem getField_foldl_set (kwargs : List FieldUpd)
    (sub : UserWeatherSubscription) (upd : FieldUpd)
    (hnd : (kwargs.map FieldUpd.fieldName).Nodup)
    (hmem : upd ∈ kwargs) (hrec : upd.recognized = true) :
    getField (kwargs.foldl applyUpd sub) upd.fieldName = some upd := by
  induction kwargs generalizing sub with
  | nil => exact absurd hmem (List.not_mem_nil upd)
  | cons k rest ih =>
      simp only [List.map_cons, List.nodup_cons] at hnd
      rcases List.mem_cons.mp hmem with rfl | hmem'
      · rw [List.foldl_cons,
          getField_foldl_frame rest _ _ hnd.1,
          getField_applyUpd_self _ _ hrec]
      · rw [List.foldl_cons]
        exact ih _ hnd.2 hmem'

theorem isOptionField_recognized (upd : FieldUpd)
    (h : upd.isOptionField = true) : upd.recognized = true := by
  cases upd <;> simp_all [FieldUpd.isOptionField, FieldUpd.recognized]

/-- C6: update_subscription returns false and changes nothing when the
user has no subscription; otherwise it returns true, overwrites exactly
the recognized named fields with the given values, leaves every other
field and every other user untouched, and an unrecognized name is a
no-op. -/
theorem C6_update_subscription (reg : Registry) (user_id : String)
    (kwargs : List FieldUpd) :
    (reg user_id = none →
       update_subscription reg user_id kwargs = (false, reg)) ∧
    (∀ sub, reg user_id = some sub →
       (update_subscription reg user_id kwargs).1 = true ∧
       (update_subscription reg user_id kwargs).2 user_id =
         some (kwargs.foldl applyUpd sub) ∧
       (∀ v, v ≠ user_id →
          (update_subscription reg user_id kwargs).2 v = reg v) ∧
       (∀ fname, fname ∉ kwargs.map FieldUpd.fieldName →
          getField (kwargs.foldl applyUpd sub) fname = getField sub fname) ∧
       ((kwargs.map FieldUpd.fieldName).Nodup →
          ∀ upd ∈ kwargs, upd.recognized = true →
            getField (kwargs.foldl applyUpd sub) upd.fieldName = some upd)) ∧
    (∀ s n, applyUpd s (.unknown n) = s) := by
  refine ⟨fun h => ?_, fun sub h => ?_, fun s n => rfl⟩
  · unfold update_subscription
    rw [h]
  · unfold update_subscription
    rw [h]
    exact ⟨rfl, by simp, fun v hv => by simp [hv],
      fun fname hf => getField_foldl_frame _ _ _ hf,
      fun hnd upd hmem hrec => getField_foldl_set _ _ _ hnd hmem hrec⟩

/-- Registry holding only sampleSub under its user id. -/
def regOne : Registry := fun u => if u = "u1" then some sampleSub else none

/-- A threshold update together with a typo key. -/
def demoUpdates : List FieldUpd :=
  [.temperature_threshold_high 80, .unknown "typo"]

theorem C6_update_subscription_witness :
    (update_subscription regOne "u1" demoUpdates).1 = true ∧
    (update_subscription regOne "u1" demoUpdates).2 "u1" =
      some (demoUpdates.foldl applyUpd sampleSub) ∧
    getField (demoUpdates.foldl applyUpd sampleSub) "rain_alerts" =
      getField sampleSub "rain_alerts" :=
  have h := (C6_update_subscription regOne "u1" demoUpdates).2.1 sampleSub rfl
  ⟨h.1, h.2.1, h.2.2.2.1 "rain_alerts" (by decide)⟩

/-- C5: subscribe followed by get yields exactly the passed fields plus
the documented defaults, fully replacing any prior subscription and
returning true; unsubscribe followed by get yields absent, and
unsubscribe reports whether a subscription existed. -/
theorem C5_subscribe_roundtrip (reg : Registry) (user_id : String)
    (latitude longitude : ℚ) (location_name : String)
    (kwargs : List FieldUpd)
    (hopt : kwargs.all FieldUpd.isOptionField = true) :
    (subscribe reg user_id latitude longitude location_name kwargs).1 =
      .ok true ∧
    get_subscription
        (subscribe reg user_id latitude longitude location_name kwargs).2
        user_id =
      some (kwargs.foldl applyUpd
        (defaultSubscription user_id latitude longitude location_name)) ∧
    (∀ v, v ≠ user_id →
       (subscribe reg user_id latitude longitude location_name kwargs).2 v =
         reg v) ∧
    defaultSubscription user_id latitude longitude location_name =
      { user_id := user_id, latitude := latitude, longitude := longitude,
        location_name := location_name, alerts_enabled := true,
        rain_alerts := true, temperature_alerts := true,
        severe_weather_alerts := true, temperature_threshold_high := 95,
        temperature_threshold_low := 32, last_checked := none,
        last_conditions := none } ∧
    ((kwargs.map FieldUpd.fieldName).Nodup →
       ∀ upd ∈ kwargs,
         getField (kwargs.foldl applyUpd
             (defaultSubscription user_id latitude longitude location_name))
           upd.fieldName = some upd) ∧
    (∀ fname, fname ∉ kwargs.map FieldUpd.fieldName →
       getField (kwargs.foldl applyUpd
           (defaultSubscription user_id latitude longitude location_name))
         fname =
       getField (defaultSubscription user_id latitude longitude location_name)
         fname) ∧
    (unsubscribe reg user_id).1 = (reg user_id).isSome ∧
    get_subscription (unsubscribe reg user_id).2 user_id = none := by
  have hsub :
      subscribe reg user_id latitude longitude location_name kwargs =
        (.ok true,
         fun u =>
           if u = user_id then
             some (kwargs.foldl applyUpd
               (defaultSubscription user_id latitude longitude location_name))
           else reg u) := by
    unfold subscribe
    rw [if_pos hopt]
  refine ⟨by rw [hsub], ?_, ?_, rfl, ?_, ?_, ?_, ?_⟩
  · rw [hsub]
    simp [get_subscription]
  · intro v hv
    rw [hsub]
    simp [hv]
  · intro hnd upd hmem
    exact getField_foldl_set _ _ _ hnd hmem
      (isOptionField_recognized upd (List.all_eq_true.mp hopt upd hmem))
  · intro fname hf
    exact getField_foldl_frame _ _ _ hf
  · unfold unsubscribe
    cases reg user_id <;> rfl
  · unfold unsubscribe get_subscription
    cases h : reg user_id with
    | none => exact h
    | some s => simp

theorem C5_subscribe_roundtrip_witness :
    (subscribe emptyRegistry "u1" 40 (-74) "NYC"
        [.rain_alerts false]).1 = .ok true ∧
    get_subscription
        (subscribe emptyRegistry "u1" 40 (-74) "NYC"
          [.rain_alerts false]).2 "u1" =
      some ([FieldUpd.rain_alerts false].foldl applyUpd
        (defaultSubscription "u1" 40 (-74) "NYC")) :=
  have h := C5_subscribe_roundtrip emptyRegistry "u1" 40 (-74) "NYC"
    [.rain_alerts false] (by decide)
  ⟨h.1, h.2.1⟩

/-- C9: subscribe called with an unrecognized optional-settings name
raises (the dataclass constructor rejects the unexpected keyword) and
leaves the registry unchanged, unlike update_subscription, which
silently ignores such names. -/
theorem C9_subscribe_unknown_kwarg (reg : Registry) (user_id : String)
    (latitude longitude : ℚ) (location_name : String)
    (kwargs : List FieldUpd) (n : String)
    (hmem : FieldUpd.unknown n ∈ kwargs) :
    subscribe reg user_id latitude longitude location_name kwargs =
      (.error (), reg) ∧
    (∀ sub, reg user_id = some sub →
       (update_subscription reg user_id [.unknown n]).1 = true ∧
       (update_subscription reg user_id [.unknown n]).2 user_id =
         some sub) := by
  constructor
  · have hnall : ¬ kwargs.all FieldUpd.isOptionField = true := fun hall => by
      have := List.all_eq_true.mp hall _ hmem
      simp [FieldUpd.isOptionField] at this
    unfold subscribe
    rw [if_neg hnall]
  · intro sub h
    unfold update_subscription
    rw [h]
    exact ⟨rfl, by simp [applyUpd]⟩

theorem C9_subscribe_unknown_kwarg_witness :
    subscribe regOne "u1" 1 2 "Elsewhere" [.unknown "bogus"] =
      (.error (), regOne) ∧
    get_subscription regOne "u1" = some sampleSub :=
  have h := C9_subscribe_unknown_kwarg regOne "u1" 1 2 "Elsewhere"
    [.unknown "bogus"] "bogus" (by decide)
  ⟨h.1, rfl⟩

/-- C8 fails on the code: the alert-subscribe endpoint passes raw floats
through to subscribe with no range constraint, so a subscription with
latitude 91 and longitude 200 is stored verbatim, outside the claimed
validated ranges. -/
theorem C8_coordinates_counterexample :
    get_subscription (subscribe emptyRegistry "u1" 91 200 "Nowhere" []).2
        "u1" =
      some (defaultSubscription "u1" 91 200 "Nowhere") ∧
    (defaultSubscription "u1" 91 200 "Nowhere").latitude = 91 ∧
    (defaultSubscription "u1" 91 200 "Nowhere").longitude = 200 ∧
    ¬ ((91 : ℚ) ≤ 90) ∧ ¬ ((200 : ℚ) ≤ 180) := by
  refine ⟨?_, rfl, rfl, by norm_num, by norm_num⟩
  rfl

/-- C8 amended: subscribe and update_subscription store coordinates
exactly as given, with no range validation on the alert-subscription
path; the documented [-90, 90] and [-180, 180] bounds are enforced only
by the request schema of the plain weather endpoints. -/
theorem C8_coordinates_stored_verbatim (reg : Registry) (user_id : String)
    (latitude longitude : ℚ) (location_name : String) :
    get_subscription
        (subscribe reg user_id latitude longitude location_name []).2
        user_id =
      some (defaultSubscription user_id latitude longitude location_name) ∧
    (∀ sub, reg user_id = some sub →
       get_subscription
           (update_subscription reg user_id
             [.latitude latitude, .longitude longitude]).2 user_id =
         some { sub with latitude := latitude, longitude := longitude }) := by
  constructor
  · simp [subscribe, get_subscription]
  · intro sub h
    unfold update_subscription get_subscription
    rw [h]
    simp [applyUpd]

theorem C8_coordinates_stored_verbatim_witness :
    get_subscription
        (update_subscription regOne "u1"
          [.latitude 91, .longitude 200]).2 "u1" =
      some { sampleSub with latitude := 91, longitude := 200 } :=
  (C8_coordinates_stored_verbatim regOne "u1" 91 200 "ignored").2
    sampleSub rfl

/-- C4: check_weather_for_user yields an empty alert list, without
error and without touching the registry, when the user has no
subscription, when alerts_enabled is false, and when the weather fetch
fails. -/
theorem C4_check_weather_error_paths (reg : Registry) (user_id : String)
    (fetch : Except Unit (CurrentConditions × HourlyForecast))
    (now : Nat) :
    (reg user_id = none →
       checkWeatherForUser reg user_id fetch now = ([], reg)) ∧
    (∀ sub, reg user_id = some sub → sub.alerts_enabled = false →
       checkWeatherForUser reg user_id fetch now = ([], reg)) ∧
    (∀ e, checkWeatherForUser reg user_id (.error e) now = ([], reg)) := by
  refine ⟨fun h => ?_, fun sub h he => ?_, fun e => ?_⟩
  · unfold checkWeatherForUser
    rw [h]
  · unfold checkWeatherForUser
    rw [h]
    dsimp only
    rw [if_pos he]
  · unfold checkWeatherForUser
    cases h : reg user_id with
    | none => rfl
    | some sub =>
        dsimp only
        by_cases he : sub.alerts_enabled = false
        · rw [if_pos he]
        · rw [if_neg he]

/-- Subscription identical to sampleSub but with the master switch
off. -/
def disabledSub : UserWeatherSubscription :=
  { sampleSub with alerts_enabled := false }

/-- Registry holding only the disabled subscription. -/
def regDisabled : Registry :=
  fun u => if u = "u1" then some disabledSub else none

theorem C4_check_weather_error_paths_witness :
    checkWeatherForUser emptyRegistry "u1"
        (.ok (dryConditions, rainForecast)) 0 = ([], emptyRegistry) ∧
    checkWeatherForUser regDisabled "u1"
        (.ok (dryConditions, rainForecast)) 0 = ([], regDisabled) ∧
    checkWeatherForUser regOne "u1" (.error ()) 0 = ([], regOne) :=
  ⟨(C4_check_weather_error_paths emptyRegistry "u1"
      (.ok (dryConditions, rainForecast)) 0).1 rfl,
   (C4_check_weather_error_paths regDisabled "u1"
      (.ok (dryConditions, rainForecast)) 0).2.1 disabledSub rfl rfl,
   (C4_check_weather_error_paths regOne "u1"
      (.error ()) 0).2.2 ()⟩

/-- DeviceToken named tuple of notifications.py; timestamps are epoch
seconds. -/
structure DeviceToken where
  token : String
  registered_at : Nat
  last_used : Nat
deriving Repr, DecidableEq

/-- Tokens expire after 30 days of inactivity. -/
def TOKEN_TTL_DAYS : Nat := 30

/-- Hard cap on stored tokens. -/
def MAX_TOKENS : Nat := 10000

/-- The user_id-to-token dict, as an insertion-ordered association list
with unique keys. -/
abbrev TokenRegistry := List (String × DeviceToken)

/-- The expiry test of _cleanup_expired_tokens: the timedelta day count
of now minus last_used exceeds the TTL. -/
def tokenExpired (now : Nat) (t : DeviceToken) : Bool :=
  decide (TOKEN_TTL_DAYS < (now - t.last_used) / 86400)

/-- NotificationService._cleanup_expired_tokens: drops every expired
entry, keeping order. -/
def cleanup_expired_tokens (now : Nat) (reg : TokenRegistry) :
    TokenRegistry :=
  reg.filter (fun p => ! tokenExpired now p.2)

/-- Dict membership and lookup by user id. -/
def lookupToken : TokenRegistry → String → Option DeviceToken
  | [], _ => none
  | (k, v) :: rest, u => if k = u then some v else lookupToken rest u

/-- Dict assignment: replaces in place when the key exists, appends
otherwise. -/
def dictInsert (u : String) (t : DeviceToken) :
    TokenRegistry → TokenRegistry
  | [] => [(u, t)]
  | (k, v) :: rest =>
      if k = u then (k, t) :: rest else (k, v) :: dictInsert u t rest

/-- The opportunistic cleanup at the top of register_device, triggered
when the registry size is within 100 of the cap. -/
def registerCleanup (now : Nat) (reg : TokenRegistry) : TokenRegistry :=
  if MAX_TOKENS - 100 ≤ reg.length then cleanup_expired_tokens now reg
  else reg

/-- NotificationService.register_device: opportunistic cleanup, then
rejection when the cap is reached and the user is new, else store the
token with fresh timestamps. -/
def register_device (now : Nat) (reg : TokenRegistry)
    (user_id device_token : String) : Bool × TokenRegistry :=
  let reg1 := registerCleanup now reg
  if MAX_TOKENS ≤ reg1.length ∧ lookupToken reg1 user_id = none then
    (false, reg1)
  else
    (true, dictInsert user_id ⟨device_token, now, now⟩ reg1)

/-- Sequential registration of a list of users with a common token,
reporting whether every single registration returned True. -/
def registerMany (now : Nat) (tok : String) (reg : TokenRegistry) :
    List String → Bool × TokenRegistry
  | [] => (true, reg)
  | u :: rest =>
      let r := register_device now reg u tok
      let rs := registerMany now tok r.2 rest
      (r.1 && rs.1, rs.2)

theorem cleanup_length_le (now : Nat) (reg : TokenRegistry) :
    (cleanup_expired_tokens now reg).length ≤ reg.length :=
  List.length_filter_le _ _

theorem cleanup_fresh (now : Nat) (reg : TokenRegistry)
    (h : ∀ p ∈ reg, p.2.last_used = now) :
    cleanup_expired_tokens now reg = reg := by
  unfold cleanup_expired_tokens
  apply List.filter_eq_self.mpr
  intro p hp
  have hl := h p hp
  simp [tokenExpired, hl, TOKEN_TTL_DAYS]

theorem registerCleanup_fresh (now : Nat) (reg : TokenRegistry)
    (h : ∀ p ∈ reg, p.2.last_used = now) :
    registerCleanup now reg = reg := by
  unfold registerCleanup
  split
  · exact cleanup_fresh now reg h
  · rfl

theorem registerCleanup_length_le (now : Nat) (reg : TokenRegistry) :
    (registerCleanup now reg).length ≤ reg.length := by
  unfold registerCleanup
  split
  · exact cleanup_length_le now reg
  · exact le_refl _

theorem lookupToken_dictInsert_self (u : String) (t : DeviceToken)
    (reg : TokenRegistry) :
    lookupToken (dictInsert u t reg) u = some t := by
  induction reg with
  | nil => simp [dictInsert, lookupToken]
  | cons p rest ih =>
      obtain ⟨k, v⟩ := p
      unfold dictInsert
      by_cases hk : k = u
      · simp [lookupToken, hk]
      · simp only [if_neg hk]
        unfold lookupToken
        rw [if_neg hk]
        exact ih

theorem lookupToken_dictInsert_other (u v : String) (t : DeviceToken)
    (reg : TokenRegistry) (h : v ≠ u) :
    lookupToken (dictInsert u t reg) v = lookupToken reg v := by
  induction reg with
  | nil =>
      unfold dictInsert lookupToken
      rw [if_neg (Ne.symm h)]
      rfl
  | cons p rest ih =>
      obtain ⟨k, w⟩ := p
      unfold dictInsert
      by_cases hk : k = u
      · rw [if_pos hk]
        unfold lookupToken
        have hne : ¬ (k = v) := fun he => h (he.symm.trans hk)
        rw [if_neg hne, if_neg hne]
      · rw [if_neg hk]
        unfold lookupToken
        by_cases hkv : k = v
        · rw [if_pos hkv, if_pos hkv]
        · rw [if_neg hkv, if_neg hkv]
          exact ih

theorem dictInsert_length_new (u : String) (t : DeviceToken)
    (reg : TokenRegistry) (h : lookupToken reg u = none) :
    (dictInsert u t reg).length = reg.length + 1 := by
  induction reg with
  | nil => rfl
  | cons p rest ih =>
      obtain ⟨k, v⟩ := p
      unfold lookupToken at h
      by_cases hk : k = u
      · rw [if_pos hk] at h
        exact absurd h (by simp)
      · rw [if_neg hk] at h
        unfold dictInsert
        rw [if_neg hk]
        simp [ih h]

theorem dictInsert_forall (u : String) (t : DeviceToken)
    (reg : TokenRegistry) (P : String × DeviceToken → Prop)
    (hreg : ∀ p ∈ reg, P p) (ht : P (u, t)) :
    ∀ p ∈ dictInsert u t reg, P p := by
  induction reg with
  | nil =>
      intro p hp
      simp only [dictInsert, List.mem_singleton] at hp
      exact hp ▸ ht
  | cons q rest ih =>
      obtain ⟨k, v⟩ := q
      intro p hp
      unfold dictInsert at hp
      by_cases hk : k = u
      · rw [if_pos hk] at hp
        rcases List.mem_cons.mp hp with rfl | hp'
        · exact hk ▸ ht
        · exact hreg p (List.mem_cons_of_mem _ hp')
      · rw [if_neg hk] at hp
        rcases List.mem_cons.mp hp with rfl | hp'
        · exact hreg _ (List.mem_cons_self _ _)
        · exact ih (fun q hq => hreg q (List.mem_cons_of_mem _ hq)) p hp'

theorem register_device_fresh_accept (now : Nat) (reg : TokenRegistry)
    (u tok : String) (hfresh : ∀ p ∈ reg, p.2.last_used = now)
    (hlt : reg.length < MAX_TOKENS) :
    register_device now reg u tok =
      (true, dictInsert u ⟨tok, now, now⟩ reg) := by
  unfold register_device
  rw [registerCleanup_fresh now reg hfresh]
  dsimp only
  rw [if_neg (fun hc => absurd hc.1 (not_le.mpr hlt))]

theorem register_device_reject (now : Nat) (reg : TokenRegistry)
    (u tok : String) (hfresh : ∀ p ∈ reg, p.2.last_used = now)
    (hlen : reg.length = MAX_TOKENS)
    (hnone : lookupToken reg u = none) :
    register_device now reg u tok = (false, reg) := by
  unfold register_device
  rw [registerCleanup_fresh now reg hfresh]
  dsimp only
  rw [if_pos ⟨le_of_eq hlen.symm, hnone⟩]

theorem registerMany_fresh (now : Nat) (tok : String) (us : List String) :
    ∀ (reg : TokenRegistry), us.Nodup →
    (∀ u ∈ us, lookupToken reg u = none) →
    reg.length + us.length ≤ MAX_TOKENS →
    (∀ p ∈ reg, p.2.last_used = now) →
    (registerMany now tok reg us).1 = true ∧
    (registerMany now tok reg us).2.length = reg.length + us.length ∧
    (∀ p ∈ (registerMany now tok reg us).2, p.2.last_used = now) ∧
    (∀ v, lookupToken reg v = none → v ∉ us →
       lookupToken (registerMany now tok reg us).2 v = none) := by
  induction us with
  | nil =>
      intro reg _ _ _ hfresh
      exact ⟨rfl, rfl, hfresh, fun v hv _ => hv⟩
  | cons u rest ih =>
      intro reg hnd hfree hlen hfresh
      have hlt : reg.length < MAX_TOKENS := by
        simp only [List.length_cons] at hlen
        omega
      have hreg1 : register_device now reg u tok =
          (true, dictInsert u ⟨tok, now, now⟩ reg) :=
        register_device_fresh_accept now reg u tok hfresh hlt
      have hulook : lookupToken reg u = none :=
        hfree u (List.mem_cons_self u rest)
      have hlen2 :
          (dictInsert u (⟨tok, now, now⟩ : DeviceToken) reg).length =
            reg.length + 1 :=
        dictInsert_length_new u _ reg hulook
      have hfresh2 :
          ∀ p ∈ dictInsert u (⟨tok, now, now⟩ : DeviceToken) reg,
            p.2.last_used = now :=
        dictInsert_forall u _ reg _ hfresh rfl
      have hfree2 :
          ∀ w ∈ rest,
            lookupToken (dictInsert u (⟨tok, now, now⟩ : DeviceToken) reg)
              w = none := by
        intro w hw
        have hwne : w ≠ u := fun he =>
          (List.nodup_cons.mp hnd).1 (he ▸ hw)
        rw [lookupToken_dictInsert_other u w _ reg hwne]
        exact hfree w (List.mem_cons_of_mem _ hw)
      have hcap2 :
          (dictInsert u (⟨tok, now, now⟩ : DeviceToken) reg).length +
            rest.length ≤ MAX_TOKENS := by
        rw [hlen2]
        simp only [List.length_cons] at hlen
        omega
      obtain ⟨ih1, ih2, ih3, ih4⟩ :=
        ih (dictInsert u ⟨tok, now, now⟩ reg)
          (List.nodup_cons.mp hnd).2 hfree2 hcap2 hfresh2
      have hrm : registerMany now tok reg (u :: rest) =
          (true &&
             (registerMany now tok
               (dictInsert u ⟨tok, now, now⟩ reg) rest).1,
           (registerMany now tok
             (dictInsert u ⟨tok, now, now⟩ reg) rest).2) := by
        simp only [registerMany]
        rw [hreg1]
      refine ⟨?_, ?_, ?_, ?_⟩
      · rw [hrm]
        simp [ih1]
      · rw [hrm]
        simp only [List.length_cons]
        rw [ih2, hlen2]
        omega
      · rw [hrm]
        exact ih3
      · intro v hv hvmem
        have hvne : v ≠ u := fun he => hvmem (he ▸ List.mem_cons_self u rest)
        have hvrest : v ∉ rest := fun hr => hvmem (List.mem_cons_of_mem _ hr)
        rw [hrm]
        exact ih4 v
          (by rw [lookupToken_dictInsert_other u v _ reg hvne]; exact hv)
          hvrest

/-- C7: register_device returns false exactly when, after the
opportunistic cleanup, the registry is at the 10000-token cap and the
user is absent; in every other case it returns true and stores the
token with fresh timestamps over any prior entry; and from empty, any
number of distinct users up to the cap all register successfully, after
which a further distinct user is rejected. -/
theorem C7_register_device :
    (∀ (now : Nat) (reg : TokenRegistry) (u tok : String),
       reg.length ≤ MAX_TOKENS →
       ((register_device now reg u tok).1 = false ↔
          ((registerCleanup now reg).length = MAX_TOKENS ∧
            lookupToken (registerCleanup now reg) u = none)) ∧
       ((register_device now reg u tok).1 = true →
          (register_device now reg u tok).2 =
            dictInsert u ⟨tok, now, now⟩ (registerCleanup now reg) ∧
          lookupToken (register_device now reg u tok).2 u =
            some ⟨tok, now, now⟩)) ∧
    (∀ (now : Nat) (tok : String) (us : List String),
       us.Nodup → us.length ≤ MAX_TOKENS →
       (registerMany now tok [] us).1 = true ∧
       (registerMany now tok [] us).2.length = us.length ∧
       (us.length = MAX_TOKENS → ∀ v, v ∉ us →
          (register_device now (registerMany now tok [] us).2 v tok).1 =
            false)) := by
  constructor
  · intro now reg u tok hcap
    have hle : (registerCleanup now reg).length ≤ MAX_TOKENS :=
      le_trans (registerCleanup_length_le now reg) hcap
    unfold register_device
    dsimp only
    by_cases hc : MAX_TOKENS ≤ (registerCleanup now reg).length ∧
        lookupToken (registerCleanup now reg) u = none
    · rw [if_pos hc]
      exact ⟨⟨fun _ => ⟨le_antisymm hle hc.1, hc.2⟩, fun _ => rfl⟩,
        fun h => by simp at h⟩
    · rw [if_neg hc]
      exact ⟨⟨fun h => by simp at h,
          fun hh => absurd ⟨le_of_eq hh.1.symm, hh.2⟩ hc⟩,
        fun _ => ⟨rfl, lookupToken_dictInsert_self u _ _⟩⟩
  · intro now tok us hnd hle
    obtain ⟨h1, h2, h3, h4⟩ :=
      registerMany_fresh now tok us [] hnd (fun u _ => rfl)
        (by simpa using hle) (fun p hp => absurd hp (List.not_mem_nil p))
    refine ⟨h1, by simpa using h2, fun hful v hv => ?_⟩
    have hlen : (registerMany now tok [] us).2.length = MAX_TOKENS := by
      rw [h2]
      simpa using hful
    rw [register_device_reject now _ v tok h3 hlen (h4 v rfl hv)]

theorem C7_register_device_witness :
    (registerMany 0 "t" [] ["a", "b"]).1 = true ∧
    (registerMany 0 "t" [] ["a", "b"]).2.length = 2 :=
  have h := C7_register_device.2 0 "t" ["a", "b"] (by decide) (by decide)
  ⟨h.1, h.2.1⟩

end Capstone
